import Mathlib

/-!
Shallow embedding of the circuit breaker and AI router of the cortex-evaluator
backend (`app/services/circuit_breaker.py` and `app/services/ai_router.py`),
with theorems checking the natural-language specification against the code.

Machine time (`time.time()`) is modelled as an integer clock passed explicitly
to the operations that read it.  The wrapped asynchronous operation of a
breaker call is modelled by its outcome (a Bool: did it succeed), and the
embedding additionally reports how many times the operation was invoked, so
that "the operation is never invoked" is expressible.
-/

namespace Cortex

/-- `CircuitState` enum from `circuit_breaker.py`. -/
inductive CircuitState
  | CLOSED
  | OPEN
  | HALF_OPEN
  deriving DecidableEq, Repr

/-- `CircuitBreakerConfig` dataclass: thresholds, timeout, history window. -/
structure CircuitBreakerConfig where
  failure_threshold : Nat := 5
  success_threshold : Nat := 2
  timeout : Int := 60
  window_size : Nat := 100
  deriving DecidableEq, Repr

/-- State of a `CircuitBreaker` instance (its mutable attributes). -/
structure CircuitBreaker where
  provider_name : String
  config : CircuitBreakerConfig
  _state : CircuitState
  _failure_count : Nat
  _success_count : Nat
  _opened_at : Option Int
  _call_history : List Bool
  deriving DecidableEq, Repr

/-- `CircuitBreaker.__init__`. -/
def CircuitBreaker.init (provider_name : String) (config : CircuitBreakerConfig) :
    CircuitBreaker :=
  { provider_name := provider_name
    config := config
    _state := CircuitState.CLOSED
    _failure_count := 0
    _success_count := 0
    _opened_at := Option.none
    _call_history := [] }

/-- `deque(maxlen=n).append`: appending past capacity drops from the left. -/
def dequeAppend (maxlen : Nat) (h : List Bool) (b : Bool) : List Bool :=
  let h2 := h ++ [b]
  if h2.length > maxlen then h2.drop (h2.length - maxlen) else h2

/-- `CircuitBreaker._transition_to_open` (records `opened_at := now`). -/
def CircuitBreaker._transition_to_open (cb : CircuitBreaker) (now : Int) : CircuitBreaker :=
  { cb with
    _state := CircuitState.OPEN
    _opened_at := Option.some now
    _success_count := 0
    _failure_count := 0 }

/-- `CircuitBreaker._transition_to_half_open`. -/
def CircuitBreaker._transition_to_half_open (cb : CircuitBreaker) : CircuitBreaker :=
  { cb with
    _state := CircuitState.HALF_OPEN
    _success_count := 0 }

/-- `CircuitBreaker._transition_to_closed`. -/
def CircuitBreaker._transition_to_closed (cb : CircuitBreaker) : CircuitBreaker :=
  { cb with
    _state := CircuitState.CLOSED
    _success_count := 0
    _failure_count := 0
    _opened_at := Option.none }

/-- `CircuitBreaker._on_success`. -/
def CircuitBreaker._on_success (cb : CircuitBreaker) : CircuitBreaker :=
  let cb := { cb with
    _call_history := dequeAppend cb.config.window_size cb._call_history true }
  if cb._state = CircuitState.HALF_OPEN then
    let cb := { cb with _success_count := cb._success_count + 1 }
    if cb._success_count ≥ cb.config.success_threshold then
      cb._transition_to_closed
    else cb
  else if cb._state = CircuitState.CLOSED then
    { cb with _failure_count := 0 }
  else cb

/-- `CircuitBreaker._on_failure`. -/
def CircuitBreaker._on_failure (cb : CircuitBreaker) (now : Int) : CircuitBreaker :=
  let cb := { cb with
    _call_history := dequeAppend cb.config.window_size cb._call_history false }
  if cb._state = CircuitState.CLOSED then
    let cb := { cb with _failure_count := cb._failure_count + 1 }
    if cb._failure_count ≥ cb.config.failure_threshold then
      cb._transition_to_open now
    else cb
  else if cb._state = CircuitState.HALF_OPEN then
    cb._transition_to_open now
  else cb

/-- `CircuitBreaker._should_attempt_reset`. -/
def CircuitBreaker._should_attempt_reset (cb : CircuitBreaker) (now : Int) : Bool :=
  match cb._opened_at with
  | Option.none => false
  | Option.some t => now - t ≥ cb.config.timeout

/-- How a `call` terminates: blocked by the breaker (a `CircuitBreakerError`
carrying the provider name and `retry_after`), the operation succeeded, or the
operation raised and the exception was re-raised. -/
inductive CallResult
  | blocked (provider_name : String) (retry_after : Int)
  | succeeded
  | failed
  deriving DecidableEq, Repr

/-- Observable effect of one `CircuitBreaker.call`: how it terminated, how many
times the wrapped operation was invoked, and the breaker state afterwards. -/
structure CallOutcome where
  result : CallResult
  op_invocations : Nat
  breaker : CircuitBreaker
  deriving DecidableEq, Repr

/-- `CircuitBreaker.call`, with the wrapped operation modelled by whether it
succeeds (`op_succeeds`). -/
def CircuitBreaker.call (cb : CircuitBreaker) (now : Int) (op_succeeds : Bool) :
    CallOutcome :=
  let gate : Sum CircuitBreaker Int :=
    if cb._state = CircuitState.OPEN then
      if cb._should_attempt_reset now then
        Sum.inl cb._transition_to_half_open
      else
        Sum.inr (max 0 (cb.config.timeout - (now - (cb._opened_at.getD 0))))
    else Sum.inl cb
  match gate with
  | Sum.inr retry_after =>
      { result := CallResult.blocked cb.provider_name retry_after
        op_invocations := 0
        breaker := cb }
  | Sum.inl cb1 =>
      if op_succeeds then
        { result := CallResult.succeeded, op_invocations := 1, breaker := cb1._on_success }
      else
        { result := CallResult.failed, op_invocations := 1, breaker := cb1._on_failure now }

/-- `CircuitBreaker.reset`. -/
def CircuitBreaker.reset (cb : CircuitBreaker) : CircuitBreaker :=
  { cb with
    _state := CircuitState.CLOSED
    _failure_count := 0
    _success_count := 0
    _opened_at := Option.none
    _call_history := [] }

/-- `n` consecutive calls whose operation fails, all at clock `now`. -/
def CircuitBreaker.failN (cb : CircuitBreaker) (now : Int) : Nat → CircuitBreaker
  | 0 => cb
  | n + 1 => ((cb.call now false).breaker.failN now n)

/-- `n` consecutive calls whose operation succeeds, all at clock `now`. -/
def CircuitBreaker.succN (cb : CircuitBreaker) (now : Int) : Nat → CircuitBreaker
  | 0 => cb
  | n + 1 => ((cb.call now true).breaker.succN now n)

/-! ### Router embedding (`ai_router.py`) -/

/-- `RoutingLane` enum. -/
inductive RoutingLane
  | FAST
  | SMART
  deriving DecidableEq, Repr

/-- Python values as far as the router inspects them: enough to model
dictionary membership and truthiness. -/
inductive Val
  | vNone
  | vBool (b : Bool)
  | vInt (n : Int)
  | vStr (s : String)
  deriving DecidableEq, Repr

/-- Python truthiness for `Val`. -/
def Val.truthy : Val → Bool
  | Val.vNone => false
  | Val.vBool b => b
  | Val.vInt n => decide (n ≠ 0)
  | Val.vStr s => decide (s ≠ "")

/-- A Python `dict` as the router sees one (association list, first key wins). -/
def PyDict := List (String × Val)
  deriving DecidableEq, Repr

/-- `key in d`. -/
def dictContains (d : PyDict) (k : String) : Bool :=
  (List.any d fun p => p.1 = k)

/-- `d.get(key)` (defaults to `None`). -/
def dictGet (d : PyDict) (k : String) : Val :=
  match List.find? (fun p => p.1 = k) d with
  | Option.some p => p.2
  | Option.none => Val.vNone

/-- Behaviour of one provider's `analyze_code` on the request under study:
either it raises an exception (a `CircuitBreakerError` from its breaker, or
any vendor-call error) or it returns a result dict. -/
inductive OpBehavior
  | raises
  | returns (r : PyDict)
  deriving DecidableEq, Repr

/-- An `AIProvider` as the router inspects it: its name and its behaviour on
the request under study. -/
structure AIProvider where
  name : String
  behavior : OpBehavior
  deriving DecidableEq, Repr

/-- `RoutingDecision` dataclass. -/
structure RoutingDecision where
  provider : AIProvider
  lane : RoutingLane
  reason : String
  deriving DecidableEq, Repr

/-- `CortexRouter`: two ordered lanes of providers. -/
structure CortexRouter where
  fast_lane : List AIProvider
  smart_lane : List AIProvider
  deriving DecidableEq, Repr

/-- Total size of the codebase: `sum(len(content) for content in codebase.values())`. -/
def totalTokens (codebase : List (String × String)) : Nat :=
  (codebase.map fun p => p.2.length).sum

/-- `CortexRouter.route_analysis`.  `none` models the `IndexError` Python would
raise on `lane[0]` with an empty lane list. -/
def CortexRouter.route_analysis (r : CortexRouter) (codebase : List (String × String))
    (input_data : PyDict) (user_intent : Option String) : Option RoutingDecision :=
  let total_tokens := totalTokens codebase
  if total_tokens > 100000 then
    r.smart_lane.head?.map fun p =>
      { provider := p, lane := RoutingLane.SMART
        reason := "Large context size requires SMART lane" }
  else if (dictGet input_data "has_vision").truthy then
    r.smart_lane.head?.map fun p =>
      { provider := p, lane := RoutingLane.SMART
        reason := "Vision capabilities required" }
  else if user_intent = Option.some "--strong" then
    r.smart_lane.head?.map fun p =>
      { provider := p, lane := RoutingLane.SMART
        reason := "User requested strong analysis" }
  else
    match
      (if user_intent = Option.some "--local" then
        List.find? (fun p => p.name = "ollama") r.fast_lane
      else Option.none) with
    | Option.some p =>
        Option.some
          { provider := p, lane := RoutingLane.FAST
            reason := "User requested local provider" }
    | Option.none =>
        if user_intent = Option.some "--cheap" then
          r.fast_lane.head?.map fun p =>
            { provider := p, lane := RoutingLane.FAST
              reason := "User requested cheap provider" }
        else
          r.fast_lane.head?.map fun p =>
            { provider := p, lane := RoutingLane.FAST
              reason := "Default FAST lane" }

/-- `CortexRouter._validate_result`:
`all(field in result for field in ["success", "result"]) and result.get("success")`. -/
def CortexRouter._validate_result (result : PyDict) : Bool :=
  (List.all ["success", "result"] fun f => dictContains result f)
    && (dictGet result "success").truthy

/-- How `analyze_with_fallback` terminates: a returned result dict, the
`Exception("All AI providers failed")`, or an exception from a provider call
in the primary-lane loop propagating uncaught. -/
inductive FallbackOutcome
  | ok (r : PyDict)
  | allProvidersFailed
  | uncaught
  deriving DecidableEq, Repr

/-- The primary-lane loop of `analyze_with_fallback` (NO try/except around the
provider call; a valid result triggers a SECOND `analyze_code` call whose value
is returned).  Returns the outcome, if the loop terminated the function, and
the per-provider `analyze_code` invocation counts. -/
def primaryPass : List AIProvider → Option FallbackOutcome × List Nat
  | [] => (Option.none, [])
  | p :: rest =>
    match p.behavior with
    | OpBehavior.raises =>
        (Option.some FallbackOutcome.uncaught, 1 :: List.replicate rest.length 0)
    | OpBehavior.returns r =>
        if CortexRouter._validate_result r then
          (Option.some (FallbackOutcome.ok r), 2 :: List.replicate rest.length 0)
        else
          let rec_result := primaryPass rest
          (rec_result.1, 1 :: rec_result.2)

/-- The fallback-lane loop of `analyze_with_fallback` (try/except around the
provider call; one `analyze_code` call per provider). -/
def fallbackPass : List AIProvider → Option PyDict × List Nat
  | [] => (Option.none, [])
  | p :: rest =>
    match p.behavior with
    | OpBehavior.raises =>
        let rec_result := fallbackPass rest
        (rec_result.1, 1 :: rec_result.2)
    | OpBehavior.returns r =>
        if CortexRouter._validate_result r then
          (Option.some r, 1 :: List.replicate rest.length 0)
        else
          let rec_result := fallbackPass rest
          (rec_result.1, 1 :: rec_result.2)

/-- Observable effect of one `analyze_with_fallback` run: how it terminated and
how many times each provider's `analyze_code` was invoked, by lane position. -/
structure FallbackRun where
  outcome : FallbackOutcome
  fast_calls : List Nat
  smart_calls : List Nat
  deriving DecidableEq, Repr

/-- `CortexRouter.analyze_with_fallback`.  `none` models the `IndexError` from
`route_analysis` on an empty lane. -/
def CortexRouter.analyze_with_fallback (r : CortexRouter) (codebase : List (String × String))
    (input_data : PyDict) (user_intent : Option String) : Option FallbackRun :=
  (r.route_analysis codebase input_data user_intent).map fun decision =>
    let primary := if decision.lane = RoutingLane.SMART then r.smart_lane else r.fast_lane
    let fallback := if decision.lane = RoutingLane.SMART then r.fast_lane else r.smart_lane
    match primaryPass primary with
    | (Option.some o, cs) =>
        if decision.lane = RoutingLane.SMART then
          { outcome := o, fast_calls := List.replicate fallback.length 0, smart_calls := cs }
        else
          { outcome := o, fast_calls := cs, smart_calls := List.replicate fallback.length 0 }
    | (Option.none, cs) =>
        match fallbackPass fallback with
        | (Option.some res, ds) =>
            if decision.lane = RoutingLane.SMART then
              { outcome := FallbackOutcome.ok res, fast_calls := ds, smart_calls := cs }
            else
              { outcome := FallbackOutcome.ok res, fast_calls := cs, smart_calls := ds }
        | (Option.none, ds) =>
            if decision.lane = RoutingLane.SMART then
              { outcome := FallbackOutcome.allProvidersFailed
                fast_calls := ds, smart_calls := cs }
            else
              { outcome := FallbackOutcome.allProvidersFailed
                fast_calls := cs, smart_calls := ds }

/-- `opened_at` is `None` exactly in the `CLOSED` state. -/
def openedInvariant (cb : CircuitBreaker) : Prop :=
  cb._opened_at = Option.none ↔ cb._state = CircuitState.CLOSED

/-! ### Characterisation lemmas for single breaker calls -/

lemma call_closed_fail_lt (cb : CircuitBreaker) (now : Int)
    (hs : cb._state = CircuitState.CLOSED)
    (hlt : cb._failure_count + 1 < cb.config.failure_threshold) :
    (cb.call now false).breaker =
      { cb with
        _call_history := dequeAppend cb.config.window_size cb._call_history false
        _failure_count := cb._failure_count + 1 } := by
  simp [CircuitBreaker.call, CircuitBreaker._on_failure,
    CircuitBreaker._transition_to_open, hs, Nat.not_le.mpr hlt]

lemma call_closed_fail_ge (cb : CircuitBreaker) (now : Int)
    (hs : cb._state = CircuitState.CLOSED)
    (hge : cb.config.failure_threshold ≤ cb._failure_count + 1) :
    (cb.call now false).breaker =
      { cb with
        _call_history := dequeAppend cb.config.window_size cb._call_history false
        _state := CircuitState.OPEN
        _opened_at := Option.some now
        _failure_count := 0
        _success_count := 0 } := by
  simp [CircuitBreaker.call, CircuitBreaker._on_failure,
    CircuitBreaker._transition_to_open, hs, hge]

lemma call_closed_succ (cb : CircuitBreaker) (now : Int)
    (hs : cb._state = CircuitState.CLOSED) :
    (cb.call now true).breaker =
      { cb with
        _call_history := dequeAppend cb.config.window_size cb._call_history true
        _failure_count := 0 } := by
  simp [CircuitBreaker.call, CircuitBreaker._on_success, hs]

lemma call_halfopen_succ_lt (cb : CircuitBreaker) (now : Int)
    (hs : cb._state = CircuitState.HALF_OPEN)
    (hlt : cb._success_count + 1 < cb.config.success_threshold) :
    (cb.call now true).breaker =
      { cb with
        _call_history := dequeAppend cb.config.window_size cb._call_history true
        _success_count := cb._success_count + 1 } := by
  simp [CircuitBreaker.call, CircuitBreaker._on_success,
    CircuitBreaker._transition_to_closed, hs, Nat.not_le.mpr hlt]

lemma call_halfopen_succ_ge (cb : CircuitBreaker) (now : Int)
    (hs : cb._state = CircuitState.HALF_OPEN)
    (hge : cb.config.success_threshold ≤ cb._success_count + 1) :
    (cb.call now true).breaker =
      { cb with
        _call_history := dequeAppend cb.config.window_size cb._call_history true
        _state := CircuitState.CLOSED
        _success_count := 0
        _failure_count := 0
        _opened_at := Option.none } := by
  simp [CircuitBreaker.call, CircuitBreaker._on_success,
    CircuitBreaker._transition_to_closed, hs, hge]

lemma call_halfopen_fail (cb : CircuitBreaker) (now : Int)
    (hs : cb._state = CircuitState.HALF_OPEN) :
    (cb.call now false).breaker =
      { cb with
        _call_history := dequeAppend cb.config.window_size cb._call_history false
        _state := CircuitState.OPEN
        _opened_at := Option.some now
        _failure_count := 0
        _success_count := 0 } := by
  simp [CircuitBreaker.call, CircuitBreaker._on_failure,
    CircuitBreaker._transition_to_open, hs]

lemma call_open_blocked (cb : CircuitBreaker) (now t : Int) (op_succeeds : Bool)
    (hs : cb._state = CircuitState.OPEN)
    (ht : cb._opened_at = Option.some t)
    (hlt : now - t < cb.config.timeout) :
    cb.call now op_succeeds =
      { result := CallResult.blocked cb.provider_name (cb.config.timeout - (now - t))
        op_invocations := 0
        breaker := cb } := by
  simp only [CircuitBreaker.call, CircuitBreaker._should_attempt_reset, hs, ht]
  have h1 : ¬ (now - t ≥ cb.config.timeout) := by omega
  have h2 : max 0 (cb.config.timeout - (now - t)) = cb.config.timeout - (now - t) := by omega
  simp [h1, h2]

lemma call_open_elapsed (cb : CircuitBreaker) (now t : Int) (op_succeeds : Bool)
    (hs : cb._state = CircuitState.OPEN)
    (ht : cb._opened_at = Option.some t)
    (hge : now - t ≥ cb.config.timeout) :
    cb.call now op_succeeds =
      (if op_succeeds then
        { result := CallResult.succeeded, op_invocations := 1
          breaker := (cb._transition_to_half_open)._on_success }
      else
        { result := CallResult.failed, op_invocations := 1
          breaker := (cb._transition_to_half_open)._on_failure now }) := by
  simp only [CircuitBreaker.call, CircuitBreaker._should_attempt_reset, hs, ht]
  simp [hge]

/-! ### Iterated calls -/

lemma failN_closed (now : Int) (n : Nat) :
    ∀ cb : CircuitBreaker, cb._state = CircuitState.CLOSED →
      cb._failure_count + n < cb.config.failure_threshold →
      (cb.failN now n)._state = CircuitState.CLOSED ∧
      (cb.failN now n)._failure_count = cb._failure_count + n ∧
      (cb.failN now n)._success_count = cb._success_count ∧
      (cb.failN now n).config = cb.config ∧
      (cb.failN now n)._opened_at = cb._opened_at := by
  induction n with
  | zero =>
      intro cb hs _
      simp [CircuitBreaker.failN, hs]
  | succ n ih =>
      intro cb hs hlt
      rw [CircuitBreaker.failN]
      rw [call_closed_fail_lt cb now hs (by omega)]
      have h := ih { cb with
          _call_history := dequeAppend cb.config.window_size cb._call_history false
          _failure_count := cb._failure_count + 1 } (by simp [hs]) (by simp; omega)
      simp only at h
      refine ⟨h.1, ?_, h.2.2.1, h.2.2.2.1, h.2.2.2.2⟩
      rw [h.2.1]; omega

lemma failN_opens (now : Int) (n : Nat) :
    ∀ cb : CircuitBreaker, cb._state = CircuitState.CLOSED →
      cb._failure_count + n + 1 = cb.config.failure_threshold →
      (cb.failN now (n + 1))._state = CircuitState.OPEN ∧
      (cb.failN now (n + 1))._failure_count = 0 ∧
      (cb.failN now (n + 1))._success_count = 0 ∧
      (cb.failN now (n + 1))._opened_at = Option.some now := by
  induction n with
  | zero =>
      intro cb hs heq
      rw [CircuitBreaker.failN]
      rw [call_closed_fail_ge cb now hs (by omega)]
      simp [CircuitBreaker.failN]
  | succ n ih =>
      intro cb hs heq
      rw [CircuitBreaker.failN]
      rw [call_closed_fail_lt cb now hs (by omega)]
      exact ih { cb with
          _call_history := dequeAppend cb.config.window_size cb._call_history false
          _failure_count := cb._failure_count + 1 } (by simp [hs]) (by simp; omega)

lemma succN_closes (now : Int) (n : Nat) :
    ∀ cb : CircuitBreaker, cb._state = CircuitState.HALF_OPEN →
      cb._success_count + n + 1 = cb.config.success_threshold →
      (cb.succN now (n + 1))._state = CircuitState.CLOSED ∧
      (cb.succN now (n + 1))._failure_count = 0 ∧
      (cb.succN now (n + 1))._success_count = 0 ∧
      (cb.succN now (n + 1))._opened_at = Option.none := by
  induction n with
  | zero =>
      intro cb hs heq
      rw [CircuitBreaker.succN]
      rw [call_halfopen_succ_ge cb now hs (by omega)]
      simp [CircuitBreaker.succN]
  | succ n ih =>
      intro cb hs heq
      rw [CircuitBreaker.succN]
      rw [call_halfopen_succ_lt cb now hs (by omega)]
      exact ih { cb with
          _call_history := dequeAppend cb.config.window_size cb._call_history true
          _success_count := cb._success_count + 1 } (by simp [hs]) (by simp; omega)

/-! ### Claim theorems: circuit breaker -/

/-- C3: starting from a fresh breaker (Closed, failure counter 0), `n < F`
consecutive failed calls leave it Closed with failure counter `n`; the `F`-th
consecutive failure transitions it to Open with both counters reset to 0; and
any success while Closed resets the failure counter to 0. -/
theorem breaker_threshold_property
    (name : String) (cfg : CircuitBreakerConfig) (now : Int) (n : Nat)
    (hn : n < cfg.failure_threshold) :
    (((CircuitBreaker.init name cfg).failN now n)._state = CircuitState.CLOSED ∧
     ((CircuitBreaker.init name cfg).failN now n)._failure_count = n) ∧
    (((CircuitBreaker.init name cfg).failN now cfg.failure_threshold)._state =
        CircuitState.OPEN ∧
     ((CircuitBreaker.init name cfg).failN now cfg.failure_threshold)._failure_count = 0 ∧
     ((CircuitBreaker.init name cfg).failN now cfg.failure_threshold)._success_count = 0) ∧
    (∀ cb : CircuitBreaker, cb._state = CircuitState.CLOSED →
      ((cb.call now true).breaker)._failure_count = 0) := by
  refine ⟨?_, ?_, ?_⟩
  · have h := failN_closed now n (CircuitBreaker.init name cfg)
      (by simp [CircuitBreaker.init]) (by simp [CircuitBreaker.init]; omega)
    exact ⟨h.1, by rw [h.2.1]; simp [CircuitBreaker.init]⟩
  · obtain ⟨m, hm⟩ : ∃ m, cfg.failure_threshold = m + 1 :=
      ⟨cfg.failure_threshold - 1, by omega⟩
    rw [hm]
    have h := failN_opens now m (CircuitBreaker.init name cfg)
      (by simp [CircuitBreaker.init]) (by simp [CircuitBreaker.init]; omega)
    exact ⟨h.1, h.2.1, h.2.2.1⟩
  · intro cb hs
    rw [call_closed_succ cb now hs]

/-- Witness for C3 at `failure_threshold = 3`, `n = 2`, as in the spec's
worked example. -/
theorem breaker_threshold_property_witness :
    (((CircuitBreaker.init "gemini" ⟨3, 2, 60, 100⟩).failN 0 2)._state =
        CircuitState.CLOSED ∧
     ((CircuitBreaker.init "gemini" ⟨3, 2, 60, 100⟩).failN 0 2)._failure_count = 2) ∧
    (((CircuitBreaker.init "gemini" ⟨3, 2, 60, 100⟩).failN 0 3)._state =
        CircuitState.OPEN ∧
     ((CircuitBreaker.init "gemini" ⟨3, 2, 60, 100⟩).failN 0 3)._failure_count = 0 ∧
     ((CircuitBreaker.init "gemini" ⟨3, 2, 60, 100⟩).failN 0 3)._success_count = 0) :=
  ⟨(breaker_threshold_property "gemini" ⟨3, 2, 60, 100⟩ 0 2 (by decide)).1,
   (breaker_threshold_property "gemini" ⟨3, 2, 60, 100⟩ 0 2 (by decide)).2.1⟩

/-- C4: a breaker Open for strictly less than `timeout` blocks the call: it
raises `CircuitBreakerError` with the backend name and remaining wait
`timeout - elapsed`, never invokes the operation, and is left unchanged. -/
theorem open_blocks_without_side_effect
    (cb : CircuitBreaker) (now t : Int) (op_succeeds : Bool)
    (hs : cb._state = CircuitState.OPEN)
    (ht : cb._opened_at = Option.some t)
    (hlt : now - t < cb.config.timeout) :
    cb.call now op_succeeds =
      { result := CallResult.blocked cb.provider_name (cb.config.timeout - (now - t))
        op_invocations := 0
        breaker := cb } :=
  call_open_blocked cb now t op_succeeds hs ht hlt

/-- Witness for C4: a breaker opened at time 10 with timeout 60, called at
time 20. -/
theorem open_blocks_without_side_effect_witness :
    ({ provider_name := "gemini", config := ⟨3, 2, 60, 100⟩
       _state := CircuitState.OPEN, _failure_count := 0, _success_count := 0
       _opened_at := Option.some 10
       _call_history := [false, false, false] } : CircuitBreaker).call 20 true =
      { result := CallResult.blocked "gemini" 50
        op_invocations := 0
        breaker :=
          { provider_name := "gemini", config := ⟨3, 2, 60, 100⟩
            _state := CircuitState.OPEN, _failure_count := 0, _success_count := 0
            _opened_at := Option.some 10
            _call_history := [false, false, false] } } :=
  open_blocks_without_side_effect _ 20 10 true rfl rfl (by decide)

/-- C5: once `timeout` has elapsed, the next call transitions Open to HalfOpen
(success counter reset) and invokes the operation; `success_threshold`
consecutive successes in HalfOpen close the breaker with counters reset and
`opened_at` cleared; any single failure in HalfOpen reopens it immediately,
discarding the success count. -/
theorem half_open_recovery_property
    (cb : CircuitBreaker) (now t : Int)
    (hs : cb._state = CircuitState.OPEN)
    (ht : cb._opened_at = Option.some t)
    (hge : now - t ≥ cb.config.timeout) :
    ((cb.call now true).op_invocations = 1 ∧ (cb.call now false).op_invocations = 1) ∧
    (2 ≤ cb.config.success_threshold →
      (cb.call now true).breaker._state = CircuitState.HALF_OPEN ∧
      (cb.call now true).breaker._success_count = 1 ∧
      (cb.call now true).breaker._opened_at = Option.some t) ∧
    ((cb.call now false).breaker._state = CircuitState.OPEN ∧
     (cb.call now false).breaker._opened_at = Option.some now ∧
     (cb.call now false).breaker._failure_count = 0 ∧
     (cb.call now false).breaker._success_count = 0) ∧
    (∀ cb2 : CircuitBreaker, cb2._state = CircuitState.HALF_OPEN →
      cb2._success_count = 0 → 1 ≤ cb2.config.success_threshold →
      (cb2.succN now cb2.config.success_threshold)._state = CircuitState.CLOSED ∧
      (cb2.succN now cb2.config.success_threshold)._failure_count = 0 ∧
      (cb2.succN now cb2.config.success_threshold)._success_count = 0 ∧
      (cb2.succN now cb2.config.success_threshold)._opened_at = Option.none) ∧
    (∀ cb3 : CircuitBreaker, cb3._state = CircuitState.HALF_OPEN →
      (cb3.call now false).breaker._state = CircuitState.OPEN ∧
      (cb3.call now false).breaker._opened_at = Option.some now ∧
      (cb3.call now false).breaker._success_count = 0) := by
  refine ⟨⟨?_, ?_⟩, ?_, ?_, ?_, ?_⟩
  · rw [call_open_elapsed cb now t true hs ht hge]; simp
  · rw [call_open_elapsed cb now t false hs ht hge]; simp
  · intro hS
    rw [call_open_elapsed cb now t true hs ht hge]
    simp only [if_pos]
    rw [show (cb._transition_to_half_open)._on_success =
        { cb._transition_to_half_open with
          _call_history := dequeAppend cb.config.window_size cb._call_history true
          _success_count := 1 } from
      call_halfopen_succ_lt cb._transition_to_half_open now
        (by simp [CircuitBreaker._transition_to_half_open])
        (by simp [CircuitBreaker._transition_to_half_open]; omega) ▸ rfl]
    · simp [CircuitBreaker._transition_to_half_open, ht]
  · rw [call_open_elapsed cb now t false hs ht hge]
    simp [CircuitBreaker._on_failure, CircuitBreaker._transition_to_half_open,
      CircuitBreaker._transition_to_open]
  · intro cb2 hs2 hsc2 hS2
    obtain ⟨m, hm⟩ : ∃ m, cb2.config.success_threshold = m + 1 :=
      ⟨cb2.config.success_threshold - 1, by omega⟩
    rw [hm]
    exact succN_closes now m cb2 hs2 (by omega)
  · intro cb3 hs3
    rw [call_halfopen_fail cb3 now hs3]
    simp

/-- Witness for C5: a breaker opened at time 10 with timeout 60 and
success threshold 2, called at time 75. -/
theorem half_open_recovery_property_witness :
    ((({ provider_name := "gemini", config := ⟨3, 2, 60, 100⟩
         _state := CircuitState.OPEN, _failure_count := 0, _success_count := 0
         _opened_at := Option.some 10
         _call_history := [false, false, false] } : CircuitBreaker).call 75
            true).op_invocations = 1 ∧
     (({ provider_name := "gemini", config := ⟨3, 2, 60, 100⟩
         _state := CircuitState.OPEN, _failure_count := 0, _success_count := 0
         _opened_at := Option.some 10
         _call_history := [false, false, false] } : CircuitBreaker).call 75
            false).op_invocations = 1) :=
  (half_open_recovery_property
    { provider_name := "gemini", config := ⟨3, 2, 60, 100⟩
      _state := CircuitState.OPEN, _failure_count := 0, _success_count := 0
      _opened_at := Option.some 10
      _call_history := [false, false, false] } 75 10 rfl rfl (by decide)).1

/-- C10: every breaker operation (a call with either outcome, and `reset`)
preserves `opened_at = None ↔ state = Closed`; a breaker that ends a call in
HalfOpen retains the `opened_at` recorded when it last entered Open. -/
theorem opened_at_none_iff_closed
    (cb : CircuitBreaker) (now : Int) (op_succeeds : Bool)
    (h : openedInvariant cb) :
    openedInvariant (cb.call now op_succeeds).breaker ∧
    openedInvariant cb.reset ∧
    (∀ (name : String) (cfg : CircuitBreakerConfig),
      openedInvariant (CircuitBreaker.init name cfg)) ∧
    ((cb.call now op_succeeds).breaker._state = CircuitState.HALF_OPEN →
      (cb.call now op_succeeds).breaker._opened_at = cb._opened_at) := by
  refine ⟨?_, ?_, ?_, ?_⟩
  · unfold openedInvariant at h ⊢
    cases hcs : cb._state <;> cases op_succeeds <;> cases hoa : cb._opened_at <;>
      simp_all [CircuitBreaker.call, CircuitBreaker._should_attempt_reset,
        CircuitBreaker._on_success, CircuitBreaker._on_failure,
        CircuitBreaker._transition_to_open, CircuitBreaker._transition_to_half_open,
        CircuitBreaker._transition_to_closed] <;>
      split_ifs <;> simp_all <;> try (split_ifs <;> simp_all)
  · simp [openedInvariant, CircuitBreaker.reset]
  · intro name cfg
    simp [openedInvariant, CircuitBreaker.init]
  · unfold openedInvariant at h
    cases hcs : cb._state <;> cases op_succeeds <;> cases hoa : cb._opened_at <;>
      simp_all [CircuitBreaker.call, CircuitBreaker._should_attempt_reset,
        CircuitBreaker._on_success, CircuitBreaker._on_failure,
        CircuitBreaker._transition_to_open, CircuitBreaker._transition_to_half_open,
        CircuitBreaker._transition_to_closed] <;>
      split_ifs <;> simp_all <;> try (split_ifs <;> simp_all)

/-- Witness for C10 at a concrete HalfOpen breaker whose call succeeds. -/
theorem opened_at_none_iff_closed_witness :
    openedInvariant
      (({ provider_name := "gemini", config := ⟨3, 2, 60, 100⟩
          _state := CircuitState.HALF_OPEN, _failure_count := 0, _success_count := 0
          _opened_at := Option.some 10
          _call_history := [false, false, false] } : CircuitBreaker).call 75
            true).breaker :=
  (opened_at_none_iff_closed
    { provider_name := "gemini", config := ⟨3, 2, 60, 100⟩
      _state := CircuitState.HALF_OPEN, _failure_count := 0, _success_count := 0
      _opened_at := Option.some 10
      _call_history := [false, false, false] } 75 true (by simp [openedInvariant])).1

/-! ### Claim theorems: routing decision -/

/-- A file body of `n` characters, used to build concrete oversized codebases
without materialising the characters in proofs. -/
def bigFile (n : Nat) : String := String.mk (List.replicate n 'x')

lemma bigFile_length (n : Nat) : (bigFile n).length = n := by
  simp [bigFile, String.length]

/-- C6: whenever the estimated total input size exceeds 100000,
`route_analysis` selects the first Smart-lane backend with the large-context
reason, regardless of the vision flag and of the user intent. -/
theorem route_large_context
    (r : CortexRouter) (codebase : List (String × String)) (input_data : PyDict)
    (user_intent : Option String) (p : AIProvider) (ps : List AIProvider)
    (hsmart : r.smart_lane = p :: ps)
    (hbig : totalTokens codebase > 100000) :
    r.route_analysis codebase input_data user_intent =
      Option.some
        { provider := p, lane := RoutingLane.SMART
          reason := "Large context size requires SMART lane" } := by
  simp [CortexRouter.route_analysis, hsmart, hbig]

/-- Concrete providers for witnesses and counterexamples. -/
def provOllama : AIProvider := { name := "ollama", behavior := OpBehavior.raises }

def provGroq : AIProvider := { name := "groq", behavior := OpBehavior.raises }

def provClaude : AIProvider := { name := "claude", behavior := OpBehavior.raises }

def provOpenai : AIProvider := { name := "openai", behavior := OpBehavior.raises }

/-- Witness for C6: a 150000-character codebase with intent `--cheap` still
routes to the first Smart-lane backend. -/
theorem route_large_context_witness :
    (CortexRouter.mk [provOllama, provGroq] [provClaude, provOpenai]).route_analysis
        [("main.py", bigFile 150000)] [] (Option.some "--cheap") =
      Option.some
        { provider := provClaude, lane := RoutingLane.SMART
          reason := "Large context size requires SMART lane" } :=
  route_large_context _ _ [] (Option.some "--cheap") provClaude [provOpenai] rfl
    (by simp [totalTokens, bigFile_length])

/-- C7: with no hard constraint triggered and intent `--local`, the first
Fast-lane backend named `ollama` is chosen with the local-provider reason when
one exists; when none exists the intent falls through to the default rule
(first Fast-lane backend, default reason). -/
theorem route_local_intent
    (r : CortexRouter) (codebase : List (String × String)) (input_data : PyDict)
    (hsize : ¬ totalTokens codebase > 100000)
    (hvision : (dictGet input_data "has_vision").truthy = false) :
    (∀ p : AIProvider,
      List.find? (fun q => q.name = "ollama") r.fast_lane = Option.some p →
      r.route_analysis codebase input_data (Option.some "--local") =
        Option.some
          { provider := p, lane := RoutingLane.FAST
            reason := "User requested local provider" }) ∧
    (List.find? (fun q => q.name = "ollama") r.fast_lane = Option.none →
      r.route_analysis codebase input_data (Option.some "--local") =
        r.fast_lane.head?.map fun q =>
          { provider := q, lane := RoutingLane.FAST
            reason := "Default FAST lane" }) := by
  constructor
  · intro p hfind
    simp [CortexRouter.route_analysis, hsize, hvision, hfind]
  · intro hfind
    simp [CortexRouter.route_analysis, hsize, hvision, hfind]

/-- Witness for C7: with ollama present the local decision is returned; with a
fast lane lacking ollama the default decision is returned. -/
theorem route_local_intent_witness :
    (CortexRouter.mk [provOllama, provGroq] [provClaude]).route_analysis
        [("a.py", "hello")] [] (Option.some "--local") =
      Option.some
        { provider := provOllama, lane := RoutingLane.FAST
          reason := "User requested local provider" } ∧
    (CortexRouter.mk [provGroq] [provClaude]).route_analysis
        [("a.py", "hello")] [] (Option.some "--local") =
      Option.some
        { provider := provGroq, lane := RoutingLane.FAST
          reason := "Default FAST lane" } :=
  ⟨(route_local_intent (CortexRouter.mk [provOllama, provGroq] [provClaude])
      [("a.py", "hello")] [] (by decide) (by decide)).1
    provOllama (by simp [provOllama]),
   (route_local_intent (CortexRouter.mk [provGroq] [provClaude])
      [("a.py", "hello")] [] (by decide) (by decide)).2
    (by simp [provGroq])⟩

/-- C8: at total size exactly 100000 the large-context constraint does not
fire (strict comparison); with no vision flag and no recognised intent the
request routes to the first Fast-lane backend by the default rule. -/
theorem route_exact_threshold_default
    (r : CortexRouter) (codebase : List (String × String)) (input_data : PyDict)
    (user_intent : Option String)
    (hsize : totalTokens codebase = 100000)
    (hvision : (dictGet input_data "has_vision").truthy = false)
    (h1 : user_intent ≠ Option.some "--strong")
    (h2 : user_intent ≠ Option.some "--local")
    (h3 : user_intent ≠ Option.some "--cheap") :
    r.route_analysis codebase input_data user_intent =
      r.fast_lane.head?.map fun q =>
        { provider := q, lane := RoutingLane.FAST
          reason := "Default FAST lane" } := by
  simp [CortexRouter.route_analysis, hsize, hvision, h1, h2, h3]

/-- Witness for C8: a single 100000-character file, empty `input_data`, no
intent. -/
theorem route_exact_threshold_default_witness :
    (CortexRouter.mk [provOllama, provGroq] [provClaude]).route_analysis
        [("main.py", bigFile 100000)] [] Option.none =
      Option.some
        { provider := provOllama, lane := RoutingLane.FAST
          reason := "Default FAST lane" } :=
  route_exact_threshold_default (CortexRouter.mk [provOllama, provGroq] [provClaude])
    [("main.py", bigFile 100000)] [] Option.none
    (by simp [totalTokens, bigFile_length]) (by decide)
    (by simp) (by simp) (by simp)

/-- C9: `_validate_result` is truthy exactly when both the `success` and
`result` keys are present and the value under `success` is truthy; the value
under `result` is never inspected, so a present-but-`None` (or empty) payload
is accepted, while a missing `result` key is rejected. -/
theorem validate_result_characterization :
    (∀ result : PyDict,
      CortexRouter._validate_result result =
        (dictContains result "success" && dictContains result "result"
          && (dictGet result "success").truthy)) ∧
    CortexRouter._validate_result [("success", Val.vBool true), ("result", Val.vNone)]
      = true ∧
    CortexRouter._validate_result [("success", Val.vBool true), ("result", Val.vStr "")]
      = true ∧
    CortexRouter._validate_result [("success", Val.vBool true)] = false := by
  refine ⟨?_, by decide, by decide, by decide⟩
  intro result
  simp [CortexRouter._validate_result, Bool.and_assoc]

/-! ### Claim theorems: fallback execution -/

/-- A result dict passing `_validate_result`. -/
def validAnalysis : PyDict :=
  [("success", Val.vBool true), ("result", Val.vStr "Analysis complete")]

/-- A router whose providers all raise on `analyze_code` (as in the repo's
`test_analyze_with_fallback_all_fail`, where every mocked provider raises
`Exception("Failed")`). -/
def allRaiseRouter : CortexRouter :=
  { fast_lane :=
      [{ name := "ollama", behavior := OpBehavior.raises }
       , { name := "groq", behavior := OpBehavior.raises }
       , { name := "gemini", behavior := OpBehavior.raises }]
    smart_lane :=
      [{ name := "claude", behavior := OpBehavior.raises }
       , { name := "openai", behavior := OpBehavior.raises }] }

/-- C1 (code bug): when every provider of the decided (FAST) lane raises, the
primary-lane loop of `analyze_with_fallback` — which has no try/except — lets
the FIRST provider's exception propagate to the caller: the run ends
`uncaught` after a single `analyze_code` call, the remaining backends of both
lanes are never tried, and the aggregate all-providers-failed error is never
raised, contrary to the claim (and to the repo's own
`test_analyze_with_fallback_all_fail`). -/
theorem primary_lane_error_propagates_uncaught :
    allRaiseRouter.analyze_with_fallback [("test.py", "hello")]
        [("query", Val.vStr "analyze")] Option.none =
      Option.some
        { outcome := FallbackOutcome.uncaught
          fast_calls := [1, 0, 0]
          smart_calls := [0, 0] } := by
  decide

/-- A router whose providers all return a valid result. -/
def allValidRouter : CortexRouter :=
  { fast_lane :=
      [{ name := "ollama", behavior := OpBehavior.returns validAnalysis }
       , { name := "groq", behavior := OpBehavior.returns validAnalysis }
       , { name := "gemini", behavior := OpBehavior.returns validAnalysis }]
    smart_lane :=
      [{ name := "claude", behavior := OpBehavior.returns validAnalysis }
       , { name := "openai", behavior := OpBehavior.returns validAnalysis }] }

/-- C2 (code bug): when the first backend of the decided (FAST) lane returns a
valid result, `analyze_with_fallback` returns it and no later backend is
called — but the winning backend's `analyze_code` is invoked TWICE (once
inside the validation check and once more to produce the returned value), not
exactly once as the claim states. -/
theorem first_valid_backend_invoked_twice :
    allValidRouter.analyze_with_fallback [("test.py", "hello")] [] Option.none =
      Option.some
        { outcome := FallbackOutcome.ok validAnalysis
          fast_calls := [2, 0, 0]
          smart_calls := [0, 0] } := by
  decide

end Cortex
